import Mathlib

/-!
Shallow embedding of the lucky-pay-nexus-hub data layer and client handlers.

The repository consists of two source files:
* `src/src/pages/Index.tsx` — the landing page together with the SQL
  migrations appended to it: table definitions (`profiles`, `transactions`,
  `bank_accounts`, `audit_logs`), row-level-security policies, and the
  trigger functions `handle_new_user`, `update_updated_at_column`,
  `log_balance_change`, `validate_transaction_amount`.
* `src/src/pages/Dashboard.tsx` — the dashboard component with
  `fetchTransactions` (a select of the caller's transactions, ordered by
  `created_at` descending, limited to 10) and `handleVerificationPayment`
  (a single insert of a fixed `verification_payment` row).

Monetary values (`DECIMAL(15,2)`) are embedded as rationals; identities,
row identifiers and timestamps as naturals.  Fallible SQL statements are
embedded as `Except String`; a trigger exception aborts the whole statement
(PostgreSQL runs each row trigger inside the statement's transaction), so
an `Except.error` result carries no new state: nothing is persisted.
The dashboard handlers are embedded as pure functions from a session and a
database state to a new state plus a list of UI effects (toasts, console
logs, component-state updates).
-/

/-- The `type` column of `transactions`:
`CHECK (type IN ('deposit', 'withdrawal', 'transfer', 'verification_payment'))`. -/
inductive TxType where
  | deposit
  | withdrawal
  | transfer
  | verification_payment
deriving DecidableEq, Repr

/-- The `status` column of `transactions`:
`CHECK (status IN ('pending', 'completed', 'failed'))`. -/
inductive TxStatus where
  | pending
  | completed
  | failed
deriving DecidableEq, Repr

/-- A row of `public.profiles` (Index.tsx, migration `CREATE TABLE public.profiles`). -/
structure Profile where
  id : Nat
  phone_number : Option String
  full_name : String
  balance : ℚ
  is_verified : Bool
  has_paid_verification : Bool
  created_at : Nat
  updated_at : Nat
deriving DecidableEq, Repr

/-- A row of `public.transactions` (Index.tsx, migration `CREATE TABLE public.transactions`). -/
structure Transaction where
  id : Nat
  user_id : Nat
  type : TxType
  amount : ℚ
  recipient_account : Option String
  recipient_name : Option String
  recipient_bank : Option String
  status : TxStatus
  reference : Nat
  description : Option String
  created_at : Nat
deriving DecidableEq, Repr

/-- The JSONB snapshot `jsonb_build_object('balance', x)` built by
`log_balance_change`. -/
structure BalanceSnapshot where
  balance : ℚ
deriving DecidableEq, Repr

/-- A row of `public.audit_logs` (Index.tsx, migration `CREATE TABLE public.audit_logs`);
the `ip_address` / `user_agent` columns are never set by any code in scope and
are omitted. -/
structure AuditLog where
  id : Nat
  user_id : Nat
  action : String
  table_name : String
  old_values : BalanceSnapshot
  new_values : BalanceSnapshot
  created_at : Nat
deriving DecidableEq, Repr

/-- A row of `auth.users` as seen by `handle_new_user`: `NEW.id`, `NEW.phone`,
and the `raw_user_meta_data` claim read by `NEW.raw_user_meta_data->>'full_name'`. -/
structure AuthUser where
  id : Nat
  phone : Option String
  raw_user_meta_full_name : Option String
deriving DecidableEq, Repr

/-- The persisted database state: the four tables of the schema
(`bank_accounts` carries no claim and is kept as an opaque row list would be;
it is omitted since no operation in scope touches it). -/
structure DBState where
  users : List AuthUser
  profiles : List Profile
  transactions : List Transaction
  audit_logs : List AuditLog
deriving DecidableEq, Repr

/-- The empty database (a fresh deployment, before any identity exists). -/
def DBState.empty : DBState := ⟨[], [], [], []⟩

/-! ## Trigger functions (Index.tsx, appended SQL migrations) -/

/-- `public.validate_transaction_amount()` (Index.tsx lines 338-353):
raises `Transaction amount must be positive` when `NEW.amount <= 0`, raises
`Transaction amount exceeds maximum limit` when `NEW.amount > 100000000`,
otherwise returns `NEW` unchanged.  Fired `BEFORE INSERT OR UPDATE` on
`public.transactions`. -/
def validate_transaction_amount (t : Transaction) : Except String Transaction :=
  if t.amount ≤ 0 then
    Except.error "Transaction amount must be positive"
  else if t.amount > 100000000 then
    Except.error "Transaction amount exceeds maximum limit"
  else
    Except.ok t

/-- `public.update_updated_at_column()` (Index.tsx lines 254-260):
`NEW.updated_at = now()`.  Fired `BEFORE UPDATE` on `public.profiles`. -/
def update_updated_at_column (p : Profile) (now : Nat) : Profile :=
  { p with updated_at := now }

/-- `public.log_balance_change()` (Index.tsx lines 308-329): when
`OLD.balance IS DISTINCT FROM NEW.balance`, insert one `audit_logs` row with
`user_id = NEW.id`, `action = TG_OP` (here always `UPDATE`),
`table_name = TG_TABLE_NAME` (here `profiles`), and the two JSONB balance
snapshots; otherwise insert nothing.  Fired `AFTER UPDATE` on `public.profiles`. -/
def log_balance_change (oldRow newRow : Profile) (logId now : Nat)
    (logs : List AuditLog) : List AuditLog :=
  if oldRow.balance ≠ newRow.balance then
    { id := logId, user_id := newRow.id, action := "UPDATE",
      table_name := "profiles",
      old_values := ⟨oldRow.balance⟩, new_values := ⟨newRow.balance⟩,
      created_at := now } :: logs
  else
    logs

/-- The `profiles` row built by `public.handle_new_user()` (Index.tsx lines
241-252): `id = NEW.id`, `phone_number = NEW.phone`,
`full_name = COALESCE(NEW.raw_user_meta_data->>'full_name', '')`;
every other column takes its schema default (Index.tsx lines 360-369):
`balance DECIMAL(15,2) DEFAULT 100000.00`, `is_verified BOOLEAN DEFAULT false`,
`has_paid_verification BOOLEAN DEFAULT false`, timestamps `DEFAULT now()`. -/
def newProfileRow (u : AuthUser) (now : Nat) : Profile :=
  { id := u.id,
    phone_number := u.phone,
    full_name := u.raw_user_meta_full_name.getD "",
    balance := 100000,
    is_verified := false,
    has_paid_verification := false,
    created_at := now,
    updated_at := now }

/-- The unique-key conflicts that can make the profile insert of
`handle_new_user` fail: `profiles.id` is the primary key and
`profiles.phone_number` is `UNIQUE` (null phone numbers do not conflict). -/
def profileInsertConflict (s : DBState) (p : Profile) : Bool :=
  s.profiles.any (fun q => q.id == p.id) ||
    match p.phone_number with
    | some ph => s.profiles.any (fun q => q.phone_number == some ph)
    | none => false

/-- `public.handle_new_user()` as fired by the `on_auth_user_created` trigger
(`AFTER INSERT ON auth.users`): inserts the new profile row; a unique-key
violation raises, which aborts the enclosing statement. -/
def handle_new_user (s : DBState) (u : AuthUser) (now : Nat) : Except String DBState :=
  let p := newProfileRow u now
  if profileInsertConflict s p then
    Except.error "duplicate key value violates unique constraint"
  else
    Except.ok { s with profiles := p :: s.profiles }

/-- Creation of a new identity: the insert into `auth.users` together with the
`on_auth_user_created` trigger (Index.tsx lines 445-447).  The trigger runs in
the same transaction as the insert, so a failure of the profile insert aborts
the identity creation with no partial state. -/
def createIdentity (s : DBState) (u : AuthUser) (now : Nat) : Except String DBState :=
  if s.users.any (fun v => v.id == u.id) then
    Except.error "duplicate key value violates unique constraint"
  else
    handle_new_user { s with users := u :: s.users } u now

/-! ## Row-level-security-guarded statements -/

/-- Insert into `public.transactions` issued by `caller`: the RLS policy
`Users can insert their own transactions ... WITH CHECK (auth.uid() = user_id)`
(Index.tsx lines 417-418) and the `validate_transaction_amount_trigger`
(`BEFORE INSERT`, Index.tsx lines 356-359) both guard the write; either
rejection aborts the statement and persists nothing. -/
def insertTransaction (s : DBState) (caller : Nat) (t : Transaction) :
    Except String DBState :=
  match validate_transaction_amount t with
  | Except.error e => Except.error e
  | Except.ok t' =>
    if caller == t'.user_id then
      Except.ok { s with transactions := t' :: s.transactions }
    else
      Except.error "new row violates row-level security policy"

/-- Update of a `public.transactions` row issued by `caller`: the RLS policy
`Users can update their own transactions ... USING (auth.uid() = user_id)`
(Index.tsx lines 275-278) and the `BEFORE UPDATE` firing of
`validate_transaction_amount_trigger` both guard the write. -/
def updateTransaction (s : DBState) (caller : Nat) (oldTx newTx : Transaction) :
    Except String DBState :=
  if caller == oldTx.user_id && s.transactions.contains oldTx then
    match validate_transaction_amount newTx with
    | Except.error e => Except.error e
    | Except.ok t' =>
      Except.ok { s with
        transactions := s.transactions.map (fun t => if t == oldTx then t' else t) }
  else
    Except.error "row-level security"

/-- Update of a `public.profiles` row issued by `caller`: guarded by the RLS
policy `Users can update their own profile ... USING (auth.uid() = id)`
(Index.tsx lines 407-408); the `BEFORE UPDATE` trigger stamps `updated_at`
(Index.tsx lines 459-462) and the `AFTER UPDATE` trigger
`log_profile_balance_changes` (Index.tsx lines 332-335) appends the audit row.
Both triggers run inside the update's transaction: when the audit insert
fails (`auditInsertOk = false` models a storage-layer failure of that insert)
the exception aborts the whole statement and the balance update is rolled
back. -/
def updateProfile (s : DBState) (caller : Nat) (oldRow newRow : Profile)
    (logId now : Nat) (auditInsertOk : Bool) : Except String DBState :=
  if caller == oldRow.id && s.profiles.contains oldRow && newRow.id == oldRow.id then
    let newRow' := update_updated_at_column newRow now
    if oldRow.balance ≠ newRow'.balance && !auditInsertOk then
      Except.error "audit insert failed"
    else
      Except.ok { s with
        profiles := s.profiles.map (fun p => if p == oldRow then newRow' else p),
        audit_logs := log_balance_change oldRow newRow' logId now s.audit_logs }
  else
    Except.error "row-level security"

/-- A select of `public.transactions` issued by `caller` and filtered on
`user_id = target` (the shape of `fetchTransactions`'s query when aimed at
`target`'s rows): the RLS policy `Users can view their own transactions ...
USING (auth.uid() = user_id)` (Index.tsx lines 414-415) restricts the visible
rows before the query's own filter applies.  A non-matching select returns
zero rows, not an error. -/
def selectTransactionsOf (s : DBState) (caller target : Nat) : List Transaction :=
  (s.transactions.filter (fun t => t.user_id == caller)).filter
    (fun t => t.user_id == target)

/-- A select of the caller's own `public.profiles` row. -/
def getProfile (s : DBState) (caller : Nat) : Option Profile :=
  (s.profiles.filter (fun p => p.id == caller)).find? (fun p => p.id == caller)

/-! ## Dashboard client (Dashboard.tsx) -/

/-- The UI effects the dashboard handlers produce. -/
inductive Effect where
  | toast (title message variant : String)
  | consoleError (message : String)
  | setTransactions (ts : List Transaction)
  | refreshProfile
deriving DecidableEq, Repr

/-- Whether an effect is a user-facing toast. -/
def Effect.isToast : Effect → Bool
  | Effect.toast _ _ _ => true
  | _ => false

/-- `fetchTransactions` (Dashboard.tsx lines 50-64), the query itself:
`from('transactions').select('*').eq('user_id', user.id)
 .order('created_at', ascending false).limit(10)` — the RLS select policy
restricts to the caller's rows, the query filters `user_id = caller`, sorts
newest first and caps at 10. -/
def listRecentTransactions (s : DBState) (caller : Nat) : List Transaction :=
  (((s.transactions.filter (fun t => t.user_id == caller)).filter
      (fun t => t.user_id == caller)).mergeSort
    (fun a b => b.created_at ≤ a.created_at)).take 10

/-- `fetchTransactions` (Dashboard.tsx lines 50-64) including its error
handling: on success it stores the rows in component state; on a
connectivity/permission failure (`connFail`) the `catch` block runs
`console.error('Error fetching transactions:', error)` and nothing else —
no toast, no retry, and the component state is left untouched. -/
def fetchTransactionsEffects (s : DBState) (caller : Nat) (connFail : Bool) :
    List Effect :=
  if connFail then
    [Effect.consoleError "Error fetching transactions:"]
  else
    [Effect.setTransactions (listRecentTransactions s caller)]

/-- The session context `useAuth()` hands the dashboard: `user` and `profile`
may each be absent. -/
structure Session where
  user : Option AuthUser
  profile : Option Profile
deriving Repr

/-- What a dashboard handler produces: the database state after the call, the
UI effects, and the value the async function returns to its caller
(`handleVerificationPayment` has no return statement, so this is the embedded
`undefined`). -/
structure HandlerResult where
  state : DBState
  effects : List Effect
  result : Option Nat
deriving Repr

/-- The row `handleVerificationPayment` inserts (Dashboard.tsx lines 72-83):
`type verification_payment`, `amount 6000`, `recipient_account '9163110673'`,
`recipient_name 'Abdullahi'`, `recipient_bank 'Opay'`, `status 'pending'`,
the fixed description string, `user_id = user.id`; `id`, `reference` and
`created_at` take their schema defaults, supplied here by the store. -/
def verificationPaymentRow (uid txid ref now : Nat) : Transaction :=
  { id := txid,
    user_id := uid,
    type := TxType.verification_payment,
    amount := 6000,
    recipient_account := some "9163110673",
    recipient_name := some "Abdullahi",
    recipient_bank := some "Opay",
    status := TxStatus.pending,
    reference := ref,
    description := some "Account verification payment to enable withdrawals",
    created_at := now }

/-- `handleVerificationPayment` (Dashboard.tsx lines 66-104):
returns immediately when `!user || !profile`; otherwise inserts the fixed
verification-payment row (a `connFail` connectivity failure or a rejected
write raises), toasting the destructive `Error` toast on failure, and on
success toasting the payment-instructions toast, refetching the transactions
and refreshing the profile.  The function body has no return statement. -/
def handleVerificationPayment (sess : Session) (s : DBState)
    (txid ref now : Nat) (connFail : Bool) : HandlerResult :=
  match sess.user, sess.profile with
  | some u, some _ =>
    if connFail then
      { state := s,
        effects := [Effect.toast "Error" "Failed to fetch" "destructive"],
        result := none }
    else
      match insertTransaction s u.id (verificationPaymentRow u.id txid ref now) with
      | Except.error e =>
        { state := s,
          effects := [Effect.toast "Error" e "destructive"],
          result := none }
      | Except.ok s' =>
        { state := s',
          effects :=
            [Effect.toast "Verification Payment Required"
              "Please pay 6,000 to Account: 9163110673 (Abdullahi - Opay) to verify your account and enable withdrawals."
              "default",
             Effect.setTransactions (listRecentTransactions s' u.id),
             Effect.refreshProfile],
          result := none }
  | _, _ => { state := s, effects := [], result := none }

/-! ## Reachable states

Every mutation in scope: identity creation (the `auth.users` insert plus its
trigger), client transaction inserts and updates, and profile updates (with
their timestamp and audit triggers, the audit insert possibly failing). -/

/-- States reachable from the empty database by the operations in scope. -/
inductive Reachable : DBState → Prop where
  | init : Reachable DBState.empty
  | createUser {s s' : DBState} {u : AuthUser} {now : Nat} :
      Reachable s → createIdentity s u now = Except.ok s' → Reachable s'
  | insertTx {s s' : DBState} {c : Nat} {t : Transaction} :
      Reachable s → insertTransaction s c t = Except.ok s' → Reachable s'
  | updateTx {s s' : DBState} {c : Nat} {o n : Transaction} :
      Reachable s → updateTransaction s c o n = Except.ok s' → Reachable s'
  | updateProf {s s' : DBState} {c : Nat} {o n : Profile} {lid now : Nat} {aok : Bool} :
      Reachable s → updateProfile s c o n lid now aok = Except.ok s' → Reachable s'

/-! ## Sample data (used to instantiate the theorems on concrete inputs) -/

/-- A sample identity. -/
def wUser : AuthUser := ⟨0, none, none⟩

/-- The profile provisioned for `wUser` at time 0. -/
def wProfile : Profile := newProfileRow wUser 0

/-- `wProfile` with its balance changed to 50000. -/
def wProfileNew : Profile := { wProfile with balance := 50000 }

/-- A database holding exactly `wUser` and its provisioned profile. -/
def wState : DBState :=
  { users := [wUser], profiles := [wProfile], transactions := [], audit_logs := [] }

/-- `wState` after the balance of `wProfile` is updated to 50000 at time 2,
with the audit row the balance-change trigger appends. -/
def wStateAfter : DBState :=
  { users := [wUser],
    profiles := [update_updated_at_column wProfileNew 2],
    transactions := [],
    audit_logs := [{ id := 1, user_id := 0, action := "UPDATE",
                     table_name := "profiles", old_values := ⟨100000⟩,
                     new_values := ⟨50000⟩, created_at := 2 }] }

/-! ## Characterizations of the guarded statements -/

/-- The amount validator accepts exactly the amounts in `(0, 100000000]` and
returns the row unchanged. -/
theorem validate_transaction_amount_ok_iff {t t' : Transaction} :
    validate_transaction_amount t = Except.ok t' ↔
      0 < t.amount ∧ t.amount ≤ 100000000 ∧ t' = t := by
  unfold validate_transaction_amount
  by_cases h1 : t.amount ≤ 0
  · simp [h1, not_lt.mpr h1]
  · by_cases h2 : t.amount > 100000000
    · simp [h1, h2, not_le.mpr h2]
    · simp [h1, h2, not_le.mp h1, not_lt.mp h2, eq_comm]

/-- A transaction insert succeeds exactly when the amount validator and the
row-level-security check both pass, and then prepends exactly the given row. -/
theorem insertTransaction_ok_iff {s : DBState} {caller : Nat} {t : Transaction}
    {s' : DBState} :
    insertTransaction s caller t = Except.ok s' ↔
      0 < t.amount ∧ t.amount ≤ 100000000 ∧ caller = t.user_id ∧
      s' = { s with transactions := t :: s.transactions } := by
  unfold insertTransaction validate_transaction_amount
  by_cases h1 : t.amount ≤ 0
  · simp [h1, not_lt.mpr h1]
  · by_cases h2 : t.amount > 100000000
    · simp [h1, h2, not_le.mpr h2]
    · by_cases h3 : caller = t.user_id
      · simp [h1, h2, h3, not_le.mp h1, not_lt.mp h2, eq_comm]
      · simp [h1, h2, h3, beq_iff_eq]

/-- A successful identity creation prepends the user row and exactly the
provisioned profile row, touching nothing else; it requires that no existing
user or profile conflicts. -/
theorem createIdentity_ok {s : DBState} {u : AuthUser} {now : Nat} {s' : DBState}
    (h : createIdentity s u now = Except.ok s') :
    s' = { s with users := u :: s.users,
                  profiles := newProfileRow u now :: s.profiles } ∧
      s.users.any (fun v => v.id == u.id) = false ∧
      s.profiles.any (fun q => q.id == u.id) = false := by
  unfold createIdentity handle_new_user at h
  by_cases h1 : s.users.any (fun v => v.id == u.id) = true
  · rw [if_pos h1] at h
    exact Except.noConfusion h
  · rw [if_neg h1] at h
    by_cases h2 :
        profileInsertConflict { s with users := u :: s.users } (newProfileRow u now) = true
    · rw [if_pos h2] at h
      exact Except.noConfusion h
    · rw [if_neg h2] at h
      have hs := (Except.ok.injEq _ _).mp h
      have h3 : s.profiles.any (fun q => q.id == u.id) = false := by
        refine Bool.eq_false_iff.mpr (fun hc => h2 ?_)
        simp [profileInsertConflict, newProfileRow, hc]
      exact ⟨hs.symm, Bool.eq_false_iff.mpr h1, h3⟩

/-- A successful transaction update maps only the `transactions` table and
requires the validator to have accepted the new row. -/
theorem updateTransaction_ok {s : DBState} {c : Nat} {o n : Transaction} {s' : DBState}
    (h : updateTransaction s c o n = Except.ok s') :
    s'.profiles = s.profiles ∧ s'.audit_logs = s.audit_logs ∧ s'.users = s.users ∧
      0 < n.amount ∧ n.amount ≤ 100000000 := by
  unfold updateTransaction at h
  by_cases h1 : (c == o.user_id && s.transactions.contains o) = true
  · rw [if_pos h1] at h
    by_cases h2 : n.amount ≤ 0
    · simp [validate_transaction_amount, h2] at h
    · by_cases h3 : n.amount > 100000000
      · simp [validate_transaction_amount, h2, h3] at h
      · simp only [validate_transaction_amount, h2, h3, if_neg, if_false] at h
        have hs := (Except.ok.injEq _ _).mp h
        exact ⟨hs ▸ rfl, hs ▸ rfl, hs ▸ rfl, not_le.mp h2, not_lt.mp h3⟩
  · rw [if_neg h1] at h
    exact Except.noConfusion h

/-- A successful profile update: the caller owns the row, the row was present,
the id is unchanged, the audit insert succeeded whenever the balance changed,
and the new state is exactly the mapped profile table plus the audit rows
produced by `log_balance_change`. -/
theorem updateProfile_ok {s : DBState} {c : Nat} {o n : Profile} {lid now : Nat}
    {aok : Bool} {s' : DBState}
    (h : updateProfile s c o n lid now aok = Except.ok s') :
    s' = { s with
        profiles := s.profiles.map
          (fun p => if p == o then update_updated_at_column n now else p),
        audit_logs := log_balance_change o (update_updated_at_column n now) lid now
          s.audit_logs } ∧
      c = o.id ∧ o ∈ s.profiles ∧ n.id = o.id ∧
      (o.balance ≠ n.balance → aok = true) := by
  unfold updateProfile at h
  by_cases h1 : (c == o.id && s.profiles.contains o && n.id == o.id) = true
  · rw [if_pos h1] at h
    have h1' := h1
    simp only [Bool.and_eq_true, beq_iff_eq] at h1'
    by_cases h2 : (decide (o.balance ≠ (update_updated_at_column n now).balance) && !aok) = true
    · rw [if_pos h2] at h
      exact Except.noConfusion h
    · rw [if_neg h2] at h
      have hs := (Except.ok.injEq _ _).mp h
      refine ⟨hs.symm, h1'.1.1, List.elem_iff.mp h1'.1.2, h1'.2, ?_⟩
      intro hne
      by_contra haok
      have ha : aok = false := Bool.eq_false_iff.mpr haok
      subst ha
      exact h2 (by simp [update_updated_at_column, hne])
  · rw [if_neg h1] at h
    exact Except.noConfusion h

/-! ## Claim theorems -/

/-- C1: an insert or update of a transaction row is rejected — aborted with an
error, persisting no row and no partial effect — exactly when the amount is
`≤ 0` or `> 100000000`; every amount `a` with `0 < a ≤ 100000000` is accepted
by the amount validator, and a successful insert touches only the
`transactions` table. -/
theorem c1_transaction_amount_validation (s : DBState) (caller : Nat)
    (t : Transaction) (h : caller = t.user_id) :
    ((∃ s', insertTransaction s caller t = Except.ok s') ↔
      0 < t.amount ∧ t.amount ≤ 100000000)
    ∧ ((∃ t', validate_transaction_amount t = Except.ok t') ↔
      0 < t.amount ∧ t.amount ≤ 100000000)
    ∧ (∀ s', insertTransaction s caller t = Except.ok s' →
        s'.transactions = t :: s.transactions ∧ s'.profiles = s.profiles ∧
          s'.audit_logs = s.audit_logs)
    ∧ (∀ o s', updateTransaction s caller o t = Except.ok s' →
        0 < t.amount ∧ t.amount ≤ 100000000) := by
  refine ⟨⟨?_, ?_⟩, ⟨?_, ?_⟩, ?_, ?_⟩
  · rintro ⟨s', hs⟩
    obtain ⟨ha, hb, -, -⟩ := insertTransaction_ok_iff.mp hs
    exact ⟨ha, hb⟩
  · rintro ⟨ha, hb⟩
    exact ⟨_, insertTransaction_ok_iff.mpr ⟨ha, hb, h, rfl⟩⟩
  · rintro ⟨t', ht⟩
    obtain ⟨ha, hb, -⟩ := validate_transaction_amount_ok_iff.mp ht
    exact ⟨ha, hb⟩
  · rintro ⟨ha, hb⟩
    exact ⟨t, validate_transaction_amount_ok_iff.mpr ⟨ha, hb, rfl⟩⟩
  · intro s' hs
    obtain ⟨-, -, -, rfl⟩ := insertTransaction_ok_iff.mp hs
    exact ⟨rfl, rfl, rfl⟩
  · intro o s' hs
    obtain ⟨-, -, -, ha, hb⟩ := updateTransaction_ok hs
    exact ⟨ha, hb⟩

/-- Concrete instantiation of `c1_transaction_amount_validation`: inserting the
6000-unit verification-payment row into the empty database succeeds. -/
theorem c1_transaction_amount_validation_witness :
    ∃ s', insertTransaction DBState.empty 0 (verificationPaymentRow 0 1 2 3) =
      Except.ok s' :=
  ((c1_transaction_amount_validation DBState.empty 0
    (verificationPaymentRow 0 1 2 3) rfl).1).mpr
    ⟨by norm_num [verificationPaymentRow], by norm_num [verificationPaymentRow]⟩

/-- C7: a select of transactions issued by identity `caller` and aimed at the
rows of a distinct identity `target` returns zero rows (not an error): the
row-level-security predicate filters every select. -/
theorem c7_transactions_rls_isolation (s : DBState) (caller target : Nat)
    (h : caller ≠ target) :
    selectTransactionsOf s caller target = [] := by
  unfold selectTransactionsOf
  rw [List.filter_filter]
  refine List.filter_eq_nil_iff.mpr (fun t _ => ?_)
  simp only [Bool.and_eq_true, beq_iff_eq, not_and]
  intro h1 h2
  omega

/-- Concrete instantiation of `c7_transactions_rls_isolation`: identity 0
reading identity 1's transactions sees zero rows. -/
theorem c7_transactions_rls_isolation_witness :
    selectTransactionsOf
      { users := [], profiles := [],
        transactions := [verificationPaymentRow 1 5 6 7], audit_logs := [] }
      0 1 = [] :=
  c7_transactions_rls_isolation _ 0 1 (by decide)

/-- C10: a call to `handleVerificationPayment` while the session's user or
profile is absent returns immediately: no insert is attempted, no effect is
surfaced, and the state is unchanged. -/
theorem c10_missing_session_guard (sess : Session) (s : DBState)
    (txid ref now : Nat) (cf : Bool)
    (h : sess.user = none ∨ sess.profile = none) :
    handleVerificationPayment sess s txid ref now cf =
      { state := s, effects := [], result := none } := by
  unfold handleVerificationPayment
  rcases sess with ⟨u, p⟩
  rcases u with _ | u
  · rcases p with _ | p <;> rfl
  · rcases p with _ | p
    · rfl
    · rcases h with h | h <;> simp at h

/-- Concrete instantiation of `c10_missing_session_guard`. -/
theorem c10_missing_session_guard_witness :
    handleVerificationPayment ⟨none, none⟩ DBState.empty 1 2 3 false =
      { state := DBState.empty, effects := [], result := none } :=
  c10_missing_session_guard ⟨none, none⟩ DBState.empty 1 2 3 false (Or.inl rfl)

/-- C2: a successful profile update appends exactly one audit-log row if and
only if the old and new balance values differ; that row carries snapshots of
the old and new balance, tagged with the operation kind `UPDATE` and the table
name `profiles`; an update that leaves the balance unchanged appends zero
audit rows. -/
theorem c2_balance_change_audit (s : DBState) (caller : Nat)
    (oldRow newRow : Profile) (logId now : Nat) (aok : Bool) (s' : DBState)
    (h : updateProfile s caller oldRow newRow logId now aok = Except.ok s') :
    (oldRow.balance ≠ newRow.balance →
      s'.audit_logs =
        { id := logId, user_id := newRow.id, action := "UPDATE",
          table_name := "profiles", old_values := ⟨oldRow.balance⟩,
          new_values := ⟨newRow.balance⟩, created_at := now } :: s.audit_logs)
    ∧ (oldRow.balance = newRow.balance → s'.audit_logs = s.audit_logs) := by
  obtain ⟨rfl, -, -, -, -⟩ := updateProfile_ok h
  constructor
  · intro hne
    simp [log_balance_change, update_updated_at_column, hne]
  · intro heq
    simp [log_balance_change, update_updated_at_column, heq]

/-- Concrete instantiation of `c2_balance_change_audit`: updating `wProfile`'s
balance from 100000 to 50000 appends exactly the matching audit row. -/
theorem c2_balance_change_audit_witness :
    wStateAfter.audit_logs =
      { id := 1, user_id := wProfileNew.id, action := "UPDATE",
        table_name := "profiles", old_values := ⟨wProfile.balance⟩,
        new_values := ⟨wProfileNew.balance⟩, created_at := 2 } ::
        wState.audit_logs :=
  (c2_balance_change_audit wState 0 wProfile wProfileNew 1 2 true wStateAfter
    (by simp [updateProfile, wState, wProfile, wProfileNew, wUser, newProfileRow,
      update_updated_at_column, log_balance_change, wStateAfter])).1 (by decide)

/-- C3: a successful identity creation leaves exactly one profile row carrying
the new identity's id, with the identity's phone number, the full-name claim
(or `""` when absent), balance 100000.00, `is_verified = false` and
`has_paid_verification = false`, and touches no other table; when the profile
insert fails, the enclosing identity creation fails with the same error and no
partial state. -/
theorem c3_identity_provisioning :
    (∀ s u now s', createIdentity s u now = Except.ok s' →
      s'.profiles.filter (fun p => p.id == u.id) = [newProfileRow u now] ∧
      (newProfileRow u now).phone_number = u.phone ∧
      (newProfileRow u now).full_name = u.raw_user_meta_full_name.getD "" ∧
      (newProfileRow u now).balance = 100000 ∧
      (newProfileRow u now).is_verified = false ∧
      (newProfileRow u now).has_paid_verification = false ∧
      s'.transactions = s.transactions ∧ s'.audit_logs = s.audit_logs)
    ∧ (∀ s u now e,
        handle_new_user { s with users := u :: s.users } u now = Except.error e →
        s.users.any (fun v => v.id == u.id) = false →
        createIdentity s u now = Except.error e) := by
  constructor
  · intro s u now s' h
    obtain ⟨rfl, -, hprof⟩ := createIdentity_ok h
    refine ⟨?_, rfl, rfl, rfl, rfl, rfl, rfl, rfl⟩
    have hnil : s.profiles.filter (fun p => p.id == u.id) = [] := by
      rw [List.filter_eq_nil_iff]
      intro p hp hpid
      have hany : s.profiles.any (fun q => q.id == u.id) = true :=
        List.any_eq_true.mpr ⟨p, hp, hpid⟩
      rw [hprof] at hany
      exact Bool.noConfusion hany
    simp [List.filter_cons, newProfileRow, hnil]
  · intro s u now e he hdup
    unfold createIdentity
    rw [if_neg (by simp [hdup])]
    exact he

/-- Concrete instantiation of `c3_identity_provisioning`: creating `wUser` in
the empty database leaves exactly one profile row with its id. -/
theorem c3_identity_provisioning_witness :
    ({ users := [wUser], profiles := [newProfileRow wUser 5], transactions := [],
       audit_logs := [] } : DBState).profiles.filter (fun p => p.id == wUser.id) =
      [newProfileRow wUser 5] :=
  (c3_identity_provisioning.1 DBState.empty wUser 5 _ (by rfl)).1

/-- C5: `listRecentTransactions` returns at most 10 rows, ordered by creation
time descending (newest first), containing only rows owned by the querying
identity; an identity with no transactions gets the empty sequence, not an
error. -/
theorem c5_list_recent_transactions (s : DBState) (caller : Nat) :
    (listRecentTransactions s caller).length ≤ 10
    ∧ List.Pairwise (fun a b => b.created_at ≤ a.created_at)
        (listRecentTransactions s caller)
    ∧ (∀ t ∈ listRecentTransactions s caller, t.user_id = caller)
    ∧ (s.transactions.filter (fun t => t.user_id == caller) = [] →
        listRecentTransactions s caller = []) := by
  refine ⟨List.length_take_le _ _, ?_, ?_, ?_⟩
  · have hs := @List.sorted_mergeSort Transaction
      (fun a b => decide (b.created_at ≤ a.created_at))
      (fun a b c hab hbc => by
        simp only [decide_eq_true_eq] at hab hbc ⊢
        exact le_trans hbc hab)
      (fun a b => by
        simp only [Bool.or_eq_true, decide_eq_true_eq]
        exact Nat.le_total b.created_at a.created_at)
      ((s.transactions.filter (fun t => t.user_id == caller)).filter
        (fun t => t.user_id == caller))
    have hp := List.Pairwise.sublist (List.take_sublist 10 _) hs
    exact hp.imp (fun hab => by simpa using hab)
  · intro t ht
    have h1 := List.take_subset _ _ ht
    have h2 := List.mem_mergeSort.mp h1
    have h3 := (List.mem_filter.mp h2).2
    simpa using h3
  · intro h
    unfold listRecentTransactions
    rw [h]
    simp

/-- Concrete instantiation of `c5_list_recent_transactions` on a database with
one transaction owned by identity 0: the listing is capped at 10, the listed
row belongs to the caller, and identity 1 with no transactions gets `[]`. -/
theorem c5_list_recent_transactions_witness :
    (listRecentTransactions
      { users := [wUser], profiles := [wProfile],
        transactions := [verificationPaymentRow 0 1 2 3], audit_logs := [] }
      0).length ≤ 10
    ∧ (verificationPaymentRow 0 1 2 3).user_id = 0
    ∧ listRecentTransactions
        { users := [wUser], profiles := [wProfile],
          transactions := [verificationPaymentRow 0 1 2 3], audit_logs := [] }
        1 = [] :=
  ⟨(c5_list_recent_transactions _ 0).1,
   (c5_list_recent_transactions
      { users := [wUser], profiles := [wProfile],
        transactions := [verificationPaymentRow 0 1 2 3], audit_logs := [] }
      0).2.2.1 _
     (by simp [listRecentTransactions, verificationPaymentRow]),
   (c5_list_recent_transactions _ 1).2.2.2
     (by simp [verificationPaymentRow])⟩

/-- C4 counterexample: at a concrete input `handleVerificationPayment`
inserts the verification-payment row but returns no identifier — its
`result` is `none`, refuting "the operation returns the created row's
identifier". -/
theorem c4_counterexample :
    (handleVerificationPayment ⟨some wUser, some wProfile⟩ wState 7 8 9
      false).result = none
    ∧ (handleVerificationPayment ⟨some wUser, some wProfile⟩ wState 7 8 9
        false).state.transactions = [verificationPaymentRow 0 7 8 9] := by
  constructor
  · norm_num [handleVerificationPayment, insertTransaction,
      validate_transaction_amount, verificationPaymentRow, wUser, wState]
  · norm_num [handleVerificationPayment, insertTransaction,
      validate_transaction_amount, verificationPaymentRow, wUser, wState]

/-- C4 (amended): a call to `handleVerificationPayment` with an authenticated
session inserts exactly one transaction row of type `verification_payment`,
amount 6000, recipient account `9163110673`, recipient name `Abdullahi`,
recipient bank `Opay`, status `pending`, owned by the caller; the operation
returns no identifier (the handler returns nothing, surfacing the outcome via
a toast and a refetch); on a write failure it surfaces a destructive error
toast and persists nothing. -/
theorem c4_create_verification_payment (u : AuthUser) (p : Profile)
    (s : DBState) (txid ref now : Nat) :
    handleVerificationPayment ⟨some u, some p⟩ s txid ref now false =
      { state := { s with transactions :=
          verificationPaymentRow u.id txid ref now :: s.transactions },
        effects :=
          [Effect.toast "Verification Payment Required"
            "Please pay 6,000 to Account: 9163110673 (Abdullahi - Opay) to verify your account and enable withdrawals."
            "default",
           Effect.setTransactions (listRecentTransactions
             { s with transactions :=
                verificationPaymentRow u.id txid ref now :: s.transactions }
             u.id),
           Effect.refreshProfile],
        result := none }
    ∧ (verificationPaymentRow u.id txid ref now).type =
        TxType.verification_payment
    ∧ (verificationPaymentRow u.id txid ref now).amount = 6000
    ∧ (verificationPaymentRow u.id txid ref now).recipient_account =
        some "9163110673"
    ∧ (verificationPaymentRow u.id txid ref now).recipient_name =
        some "Abdullahi"
    ∧ (verificationPaymentRow u.id txid ref now).recipient_bank = some "Opay"
    ∧ (verificationPaymentRow u.id txid ref now).status = TxStatus.pending
    ∧ (verificationPaymentRow u.id txid ref now).user_id = u.id
    ∧ handleVerificationPayment ⟨some u, some p⟩ s txid ref now true =
        { state := s,
          effects := [Effect.toast "Error" "Failed to fetch" "destructive"],
          result := none } := by
  have hins : insertTransaction s u.id (verificationPaymentRow u.id txid ref now) =
      Except.ok { s with transactions :=
        verificationPaymentRow u.id txid ref now :: s.transactions } :=
    insertTransaction_ok_iff.mpr
      ⟨by norm_num [verificationPaymentRow], by norm_num [verificationPaymentRow],
       rfl, rfl⟩
  refine ⟨?_, rfl, rfl, rfl, rfl, rfl, rfl, rfl, rfl⟩
  unfold handleVerificationPayment
  simp [hins]

/-- C8: `handleVerificationPayment` leaves the `profiles` table unchanged in
every case; fetching any profile after the call gives the same row as before,
so a profile with `has_paid_verification = false` still shows it, and no
client operation in scope writes a profile's balance. -/
theorem c8_profile_frame (sess : Session) (s : DBState) (txid ref now : Nat)
    (cf : Bool) :
    (handleVerificationPayment sess s txid ref now cf).state.profiles =
      s.profiles
    ∧ ∀ c, getProfile (handleVerificationPayment sess s txid ref now cf).state c
        = getProfile s c := by
  have hp : (handleVerificationPayment sess s txid ref now cf).state.profiles =
      s.profiles := by
    unfold handleVerificationPayment
    rcases sess with ⟨u, p⟩
    rcases u with _ | u
    · rcases p with _ | p <;> rfl
    · rcases p with _ | p
      · rfl
      · rcases cf with _ | _
        · cases hins : insertTransaction s u.id
            (verificationPaymentRow u.id txid ref now) with
          | error e => simp [hins]
          | ok s2 =>
            obtain ⟨-, -, -, rfl⟩ := insertTransaction_ok_iff.mp hins
            simp [hins]
        · rfl
  refine ⟨hp, fun c => ?_⟩
  unfold getProfile
  rw [hp]

/-- C9 counterexample: on the failure path `fetchTransactions` emits exactly
one console log and no toast — the error is not shown to the user as a
notification, refuting the claim at this concrete input. -/
theorem c9_counterexample :
    fetchTransactionsEffects DBState.empty 0 true =
      [Effect.consoleError "Error fetching transactions:"]
    ∧ (fetchTransactionsEffects DBState.empty 0 true).any Effect.isToast =
        false := by
  constructor <;> rfl

/-- C9 (amended): on a connectivity or permission failure the data-access
error is caught at the presentation boundary and logged to the developer
console only; no user-facing notification is shown and there is no retry. -/
theorem c9_fetch_error_console_only (s : DBState) (caller : Nat) :
    fetchTransactionsEffects s caller true =
      [Effect.consoleError "Error fetching transactions:"]
    ∧ (fetchTransactionsEffects s caller true).any Effect.isToast = false := by
  constructor <;> rfl

/-- C6: the audit row is part of the triggering update's transaction — when
the audit insert fails, a balance-changing profile update aborts with nothing
persisted — and in every reachable state every profile whose balance differs
from the provisioning default 100000 has an audit entry recording its current
balance. -/
theorem c6_audit_atomicity :
    (∀ s c o n lid now, o.balance ≠ n.balance →
      ∀ s', updateProfile s c o n lid now false ≠ Except.ok s')
    ∧ (∀ s, Reachable s → ∀ p ∈ s.profiles, p.balance ≠ 100000 →
        ∃ a ∈ s.audit_logs, a.user_id = p.id ∧ a.new_values = ⟨p.balance⟩) := by
  constructor
  · intro s c o n lid now hne s' h
    obtain ⟨-, -, -, -, haok⟩ := updateProfile_ok h
    exact Bool.noConfusion (haok hne)
  · intro s hreach
    induction hreach with
    | init =>
      intro p hp
      exact absurd hp (List.not_mem_nil p)
    | @createUser s0 s1 u now hr hok ih =>
      obtain ⟨rfl, -, -⟩ := createIdentity_ok hok
      intro p hp hbal
      rcases List.mem_cons.mp hp with rfl | hp0
      · exact absurd rfl hbal
      · exact ih p hp0 hbal
    | @insertTx s0 s1 c t hr hok ih =>
      obtain ⟨-, -, -, rfl⟩ := insertTransaction_ok_iff.mp hok
      exact ih
    | @updateTx s0 s1 c o n hr hok ih =>
      obtain ⟨hprof, haud, -, -, -⟩ := updateTransaction_ok hok
      intro p hp hbal
      rw [hprof] at hp
      rw [haud]
      exact ih p hp hbal
    | @updateProf s0 s1 c o n lid now aok hr hok ih =>
      obtain ⟨rfl, -, homem, hid, -⟩ := updateProfile_ok hok
      intro p hp hbal
      simp only [List.mem_map] at hp
      obtain ⟨q, hq, hqeq⟩ := hp
      by_cases hcase : (q == o) = true
      · rw [if_pos hcase] at hqeq
        subst hqeq
        by_cases hb : o.balance = n.balance
        · have hlog : log_balance_change o (update_updated_at_column n now)
              lid now s0.audit_logs = s0.audit_logs := by
            simp [log_balance_change, update_updated_at_column, hb]
          have hob : o.balance ≠ 100000 := by
            rw [hb]
            simpa [update_updated_at_column] using hbal
          obtain ⟨a, ha, h1, h2⟩ := ih o homem hob
          refine ⟨a, ?_, ?_, ?_⟩
          · show a ∈ log_balance_change o (update_updated_at_column n now)
              lid now s0.audit_logs
            rw [hlog]
            exact ha
          · rw [h1, ← hid]
            rfl
          · rw [h2]
            show BalanceSnapshot.mk o.balance = BalanceSnapshot.mk n.balance
            rw [hb]
        · refine ⟨{ id := lid, user_id := n.id, action := "UPDATE",
                     table_name := "profiles", old_values := ⟨o.balance⟩,
                     new_values := ⟨n.balance⟩, created_at := now },
            ?_, rfl, rfl⟩
          show _ ∈ log_balance_change o (update_updated_at_column n now)
            lid now s0.audit_logs
          have hlog : log_balance_change o (update_updated_at_column n now)
              lid now s0.audit_logs =
              { id := lid, user_id := n.id, action := "UPDATE",
                table_name := "profiles", old_values := ⟨o.balance⟩,
                new_values := ⟨n.balance⟩, created_at := now } ::
                s0.audit_logs := by
            simp [log_balance_change, update_updated_at_column, hb]
          rw [hlog]
          exact List.mem_cons_self _ _
      · rw [if_neg hcase] at hqeq
        subst hqeq
        obtain ⟨a, ha, h1, h2⟩ := ih q hq hbal
        refine ⟨a, ?_, h1, h2⟩
        show a ∈ log_balance_change o (update_updated_at_column n now)
          lid now s0.audit_logs
        unfold log_balance_change
        split
        · exact List.mem_cons_of_mem _ ha
        · exact ha

/-- Concrete instantiation of `c6_audit_atomicity`: with a failing audit
insert the concrete balance update cannot commit, and the concrete reachable
state `wStateAfter` carries a matching audit entry for its updated profile. -/
theorem c6_audit_atomicity_witness :
    (updateProfile wState 0 wProfile wProfileNew 1 2 false ≠ Except.ok wState)
    ∧ ∃ a ∈ wStateAfter.audit_logs,
        a.user_id = (update_updated_at_column wProfileNew 2).id ∧
        a.new_values = ⟨(update_updated_at_column wProfileNew 2).balance⟩ :=
  ⟨c6_audit_atomicity.1 wState 0 wProfile wProfileNew 1 2 (by decide) wState,
   c6_audit_atomicity.2 wStateAfter
     (@Reachable.updateProf wState wStateAfter 0 wProfile wProfileNew 1 2 true
       (@Reachable.createUser DBState.empty wState wUser 0 Reachable.init
         (by rfl))
       (by simp [updateProfile, wState, wProfile, wProfileNew, wUser,
         newProfileRow, update_updated_at_column, log_balance_change,
         wStateAfter]))
     (update_updated_at_column wProfileNew 2) (by simp [wStateAfter])
     (by decide)⟩
